import Mathlib

/-!
Verification of the HTTP request/response/error/retry pipeline in
`src/api/api-client.ts` (class `ApiClient`), against its specification.

Naming map between the spec and the source:
* spec `Envelope{body, statusCode, statusText, headers}` is the source's
  `ApiResponse{data, status, statusText, headers}`;
* the spec's three `PipelineError` kinds name the three branches of the
  source's shared failure handler `ApiClient.handleError`:
  `ServerError` for the `error.response` branch, `NoResponseError` for the
  `error.request` branch, `RequestSetupError` for the final branch.

Payload bodies and header collections are opaque to the pipeline, so they are
type parameters (`σ`, `η`); `JSON.stringify` is an opaque `stringify`
parameter where a branch serializes a body into a message string.
-/

namespace ApiClient

/-- A transport (axios) success response: the fields of `AxiosResponse` that
`formatResponse` reads — `data`, `status`, `statusText`, `headers`. -/
structure AxiosResponse (σ η : Type) where
  data : σ
  status : Nat
  statusText : String
  headers : η
deriving DecidableEq

/-- The source's `ApiResponse<T>` interface (the spec's `Envelope`):
`data` (spec `body`), `status` (spec `statusCode`), `statusText`, `headers`. -/
structure ApiResponse (σ η : Type) where
  data : σ
  status : Nat
  statusText : String
  headers : η
deriving DecidableEq

/-- The response attached to a transport failure: the fields destructured by
`handleError` in the `error.response` branch (`status`, `statusText`, `data`). -/
structure ErrorResponse (σ : Type) where
  status : Nat
  statusText : String
  data : σ
deriving DecidableEq

/-- A transport failure object as `handleError` inspects it: an optional
response, an optional request object (only its presence/truthiness is ever
used), and a message string. -/
structure AxiosError (σ : Type) where
  response : Option (ErrorResponse σ)
  request : Option Unit
  message : String
deriving DecidableEq

/-- A JavaScript `Error` as the pipeline constructs it: only its `message`
is set (`new Error(message)`). -/
structure JsError where
  message : String
deriving DecidableEq

/-- The spec's `PipelineError` tagged variant. Each variant carries the values
the corresponding `handleError` branch computes: the `error.response` branch
destructures `status`, `statusText`, `data`; the final branch computes the
local `message` string, which the source builds as
`` `Request Error: ${error.message}` ``. -/
inductive PipelineError (σ : Type) where
  | serverError (statusCode : Nat) (statusText : String) (body : σ)
  | noResponseError
  | requestSetupError (message : String)
deriving DecidableEq

/-- The three error kinds of the spec's taxonomy. -/
inductive ErrorKind where
  | serverError
  | noResponseError
  | requestSetupError
deriving DecidableEq

/-- The kind (tag) of a `PipelineError`. -/
def PipelineError.kind {σ : Type} : PipelineError σ → ErrorKind
  | .serverError _ _ _ => .serverError
  | .noResponseError => .noResponseError
  | .requestSetupError _ => .requestSetupError

/-- Source `ApiClient.handleError` (api-client.ts lines 139–157), classification
level: `if (error.response)` destructures `{status, statusText, data}` from
the response; `else if (error.request)` is the no-response case; the final
branch computes `` `Request Error: ${error.message}` ``. -/
def handleError {σ : Type} (e : AxiosError σ) : PipelineError σ :=
  match e.response with
  | some r => .serverError r.status r.statusText r.data
  | none =>
    match e.request with
    | some _ => .noResponseError
    | none => .requestSetupError ("Request Error: " ++ e.message)

/-- The message string of the `Error` object each `handleError` branch
returns: `` `API Error: ${status} ${statusText} - ${JSON.stringify(data)}` ``,
`'Network Error: No response received'`, or the `Request Error:`-prefixed
message. -/
def errorText {σ : Type} (stringify : σ → String) : PipelineError σ → String
  | .serverError statusCode statusText body =>
      "API Error: " ++ toString statusCode ++ " " ++ statusText ++ " - " ++ stringify body
  | .noResponseError => "Network Error: No response received"
  | .requestSetupError message => message

/-- The `Error` value `handleError` actually returns to be thrown:
`new Error(...)` with the branch's message string. -/
def handleErrorJs {σ : Type} (stringify : σ → String) (e : AxiosError σ) : JsError :=
  { message := errorText stringify (handleError e) }

/-- Source `ApiClient.formatResponse` (lines 130–137): builds the `ApiResponse`
envelope from the transport response's `data`, `status`, `statusText`,
`headers`. -/
def formatResponse {σ η : Type} (r : AxiosResponse σ η) : ApiResponse σ η :=
  { data := r.data
    status := r.status
    statusText := r.statusText
    headers := r.headers }

/-- Source `ApiClient.get` (lines 66–73): awaits the transport call (modelled by its
outcome `t`), returns `formatResponse(response)` on success and throws
`handleError(error)` on failure. -/
def get {σ η β : Type} (t : Except (AxiosError β) (AxiosResponse σ η)) :
    Except (PipelineError β) (ApiResponse σ η) :=
  match t with
  | .ok r => .ok (formatResponse r)
  | .error e => .error (handleError e)

/-- Source `ApiClient.post` (lines 75–82): same shape as `get`; the request body only
influences the transport outcome `t`. -/
def post {σ η β : Type} (t : Except (AxiosError β) (AxiosResponse σ η)) :
    Except (PipelineError β) (ApiResponse σ η) :=
  match t with
  | .ok r => .ok (formatResponse r)
  | .error e => .error (handleError e)

/-- Source `ApiClient.put` (lines 84–91). -/
def put {σ η β : Type} (t : Except (AxiosError β) (AxiosResponse σ η)) :
    Except (PipelineError β) (ApiResponse σ η) :=
  match t with
  | .ok r => .ok (formatResponse r)
  | .error e => .error (handleError e)

/-- Source `ApiClient.patch` (lines 93–100). -/
def patch {σ η β : Type} (t : Except (AxiosError β) (AxiosResponse σ η)) :
    Except (PipelineError β) (ApiResponse σ η) :=
  match t with
  | .ok r => .ok (formatResponse r)
  | .error e => .error (handleError e)

/-- Source `ApiClient.delete` (lines 102–109). -/
def delete {σ η β : Type} (t : Except (AxiosError β) (AxiosResponse σ η)) :
    Except (PipelineError β) (ApiResponse σ η) :=
  match t with
  | .ok r => .ok (formatResponse r)
  | .error e => .error (handleError e)

/-- The observable outcome of one `withRetry` call: its `result` (`.ok v` for
a returned value; `.error (some e)` for a thrown failure `e`; `.error none`
models `throw lastError!` firing with `lastError` never assigned, i.e.
throwing `undefined`), the number of times the operation was invoked, and the
list of backoff waits performed, in order and in milliseconds. -/
structure RetryTrace (ε τ : Type) where
  result : Except (Option ε) τ
  calls : Nat
  delays : List Nat

/-- The loop body of `ApiClient.withRetry` (lines 160–183). The operation is
modelled by its per-attempt outcome (`operation k` is what the k-th
invocation, 1-indexed, returns or throws). `attempt` is the loop counter;
`fuel` counts the loop iterations still allowed, so `fuel = maxAttempts + 1 -
attempt` and the source's `attempt === maxAttempts` break-test is `fuel = 1`.
On a failure that is not the last attempt the source awaits
`this.delay(delay * attempt)` and iterates; on the last attempt it breaks and
re-throws `lastError`, which then holds exactly the failure of that attempt.
`fuel = 0` is the loop guard failing with `lastError` unassigned (reachable
only when `maxAttempts < attempt`). -/
def withRetryGo {ε τ : Type} (operation : Nat → Except ε τ) (delayMs : Nat) :
    Nat → Nat → RetryTrace ε τ
  | _, 0 => { result := .error none, calls := 0, delays := [] }
  | attempt, fuel + 1 =>
    match operation attempt with
    | .ok v => { result := .ok v, calls := 1, delays := [] }
    | .error e =>
      if fuel = 0 then { result := .error (some e), calls := 1, delays := [] }
      else
        let tail := withRetryGo operation delayMs (attempt + 1) fuel
        { result := tail.result
          calls := tail.calls + 1
          delays := delayMs * attempt :: tail.delays }

/-- Source `ApiClient.withRetry` (lines 160–183): run the loop from `attempt = 1`
with `maxAttempts` iterations allowed. The source defaults are `maxAttempts =
testConfig.apiRetryAttempts` and `delay = 1000`. -/
def withRetry {ε τ : Type} (operation : Nat → Except ε τ) (maxAttempts : Nat)
    (delayMs : Nat) : RetryTrace ε τ :=
  withRetryGo operation delayMs 1 maxAttempts

/-- Update a header collection (a JS object modelled as an association list):
assigning `headers[key] = value` overwrites the existing entry for `key` or
appends a new one. -/
def setHeader : List (String × String) → String → String → List (String × String)
  | [], key, value => [(key, value)]
  | (k0, v0) :: rest, key, value =>
    if k0 = key then (key, value) :: rest
    else (k0, v0) :: setHeader rest key value

/-- Delete a key from a header collection: `delete headers[key]`. -/
def removeHeader (hs : List (String × String)) (key : String) : List (String × String) :=
  hs.filter (fun p => p.1 != key)

/-- Read a header value: `headers[key]`, `none` when the key is absent. -/
def getHeader : List (String × String) → String → Option String
  | [], _ => none
  | (k0, v0) :: rest, key => if k0 = key then some v0 else getHeader rest key

/-- The mutable state of one `ApiClient` instance: the `baseURL` field, the
wrapped transport's `defaults.baseURL`, and the transport's
`defaults.headers.common` collection (the headers applied to every request). -/
structure ClientState where
  baseURL : String
  defaultsBaseURL : String
  commonHeaders : List (String × String)
  timeout : Nat

/-- The `ApiClient` constructor (lines 16–28): stores `baseURL`, creates the
transport with that base URL, the configured timeout, and default
`Content-Type`/`Accept` headers; no `Authorization` header is present
initially. -/
def mkClient (baseURL : String) (timeout : Nat) : ClientState :=
  { baseURL := baseURL
    defaultsBaseURL := baseURL
    commonHeaders := [("Content-Type", "application/json"), ("Accept", "application/json")]
    timeout := timeout }

/-- Source `ApiClient.setAuthToken` (lines 112–114):
`this.client.defaults.headers.common['Authorization'] = 'Bearer ' + token`. -/
def setAuthToken (st : ClientState) (token : String) : ClientState :=
  { st with commonHeaders := setHeader st.commonHeaders "Authorization" ("Bearer " ++ token) }

/-- Source `ApiClient.removeAuthToken` (lines 116–118):
`delete this.client.defaults.headers.common['Authorization']`. -/
def removeAuthToken (st : ClientState) : ClientState :=
  { st with commonHeaders := removeHeader st.commonHeaders "Authorization" }

/-- Source `ApiClient.setBaseURL` (lines 120–123): updates both the instance's
`baseURL` field and the transport's `defaults.baseURL`. -/
def setBaseURL (st : ClientState) (baseURL : String) : ClientState :=
  { st with baseURL := baseURL, defaultsBaseURL := baseURL }

/-- Source `ApiClient.getBaseURL` (lines 125–127): returns `this.baseURL`. -/
def getBaseURL (st : ClientState) : String :=
  st.baseURL

/-- Modelled from the spec: the defaults-merge that attaches
`defaults.headers.common` to each outgoing request happens inside the
transport library (axios), not in this repository's sources; per spec §3 a
set token is "injected as a bearer credential header on every subsequent
request", i.e. a request issued in state `st` carries `st.commonHeaders`. -/
def issuedRequestHeaders (st : ClientState) : List (String × String) :=
  st.commonHeaders

/-- Source `ApiClient.get` with the logging capability made explicit. The
pipeline calls an injected logger unguarded at fixed sites: the request
interceptor before dispatch (line 34), the response interceptor after the
transport settles (lines 49–50 or 54–59), and inside `handleError`
(lines 144, 149, 154). `lb` models the behavior every logging call of this
run exhibits: `Except.ok ()` for a call that returns normally, or
`Except.error x` for a call that throws `x`. When the logger throws, the
request interceptor's call throws before dispatch, the rejection reaches the
verb's `catch`, and `handleError`'s own logging call throws the same value
again, so the logger's exception propagates to the caller in place of the
request outcome; when the logger returns normally every site is a no-op and
the call proceeds exactly as `get`. -/
def getLogged {σ η β ε : Type} (lb : Except ε Unit)
    (t : Except (AxiosError β) (AxiosResponse σ η)) :
    Except (ε ⊕ PipelineError β) (ApiResponse σ η) :=
  match lb with
  | .error x => .error (.inl x)
  | .ok _ =>
    match t with
    | .ok r => .ok (formatResponse r)
    | .error e => .error (.inr (handleError e))

end ApiClient

namespace ApiClient

/-- Claim C1: the shared failure handler produces exactly one of the three
error kinds, chosen only by which lifecycle stage failed: `serverError` iff a
response is present, `noResponseError` iff no response but a request is
present, `requestSetupError` iff neither is present; and the kind is invariant
under any change of the failure's message text. -/
theorem handleError_classifies_by_stage {σ : Type} (e : AxiosError σ) (m : String) :
    ((handleError e).kind = ErrorKind.serverError ↔ e.response.isSome = true) ∧
    ((handleError e).kind = ErrorKind.noResponseError ↔
      (e.response.isSome = false ∧ e.request.isSome = true)) ∧
    ((handleError e).kind = ErrorKind.requestSetupError ↔
      (e.response.isSome = false ∧ e.request.isSome = false)) ∧
    (handleError { e with message := m }).kind = (handleError e).kind := by
  obtain ⟨resp, req, msg⟩ := e
  cases resp <;> cases req <;>
    simp [handleError, PipelineError.kind, Option.isSome]

/-- Claim C2: for every successful transport response, each of the five verb
methods returns the envelope whose `data` (spec `body`), `status`
(spec `statusCode`), `statusText` and `headers` equal the transport
response's fields exactly; the raw transport response (of type
`AxiosResponse`, not `ApiResponse`) is never the returned value. -/
theorem verbs_passthrough_envelope {σ η β : Type} (r : AxiosResponse σ η) :
    (formatResponse r).data = r.data ∧
    (formatResponse r).status = r.status ∧
    (formatResponse r).statusText = r.statusText ∧
    (formatResponse r).headers = r.headers ∧
    get (β := β) (.ok r) = .ok (formatResponse r) ∧
    post (β := β) (.ok r) = .ok (formatResponse r) ∧
    put (β := β) (.ok r) = .ok (formatResponse r) ∧
    patch (β := β) (.ok r) = .ok (formatResponse r) ∧
    delete (β := β) (.ok r) = .ok (formatResponse r) := by
  refine ⟨rfl, rfl, rfl, rfl, rfl, rfl, rfl, rfl, rfl⟩

/-- Claim C3: for every failure carrying a response, the pipeline raises the
`serverError` variant whose `statusCode` equals the response's status code,
for every status in [400, 599]. -/
theorem serverError_statusCode {σ η β : Type} (e : AxiosError β)
    (r : ErrorResponse β) (hresp : e.response = some r)
    (_h400 : 400 ≤ r.status) (_h599 : r.status ≤ 599) :
    get (σ := σ) (η := η) (.error e) =
      .error (.serverError r.status r.statusText r.data) ∧
    ∀ p, get (σ := σ) (η := η) (.error e) = .error p →
      p.kind = ErrorKind.serverError := by
  constructor
  · simp [get, handleError, hresp]
  · intro p hp
    simp [get, handleError, hresp] at hp
    simp [← hp, PipelineError.kind]

/-- Witness for C3 at a concrete input: a failure whose response has status
404 yields the `serverError` variant carrying 404. -/
theorem serverError_statusCode_witness :
    get (σ := Unit) (η := Unit) (.error { response := some { status := 404, statusText := "Not Found", data := () }, request := none, message := "Request failed" }) = .error (.serverError 404 "Not Found" ()) := by
  exact (serverError_statusCode { response := some { status := 404, statusText := "Not Found", data := () }, request := none, message := "Request failed" } { status := 404, statusText := "Not Found", data := () } rfl (by decide) (by decide)).1

/-- Counterexample to claim C4 as stated: for the failure with neither request
nor response and message `"boom"`, the raised `Error`'s message is
`"Request Error: boom"`, not the underlying message `"boom"` — the source
prefixes it. -/
theorem requestSetup_message_not_plain :
    (handleErrorJs (fun _ : Unit => "null")
        { response := none, request := none, message := "boom" }).message ≠
      "boom" := by
  decide

/-- Claim C4 (amended): for every failure with neither request nor response,
the pipeline raises the `requestSetupError` variant, and the raised `Error`'s
message equals `"Request Error: "` followed by the underlying failure's
message. -/
theorem requestSetup_message_prefixed {σ : Type} (stringify : σ → String)
    (e : AxiosError σ) (hresp : e.response = none) (hreq : e.request = none) :
    handleError e = .requestSetupError ("Request Error: " ++ e.message) ∧
    (handleErrorJs stringify e).message = "Request Error: " ++ e.message := by
  constructor
  · simp [handleError, hresp, hreq]
  · simp [handleErrorJs, handleError, errorText, hresp, hreq]

/-- Witness for the amended C4 at a concrete input. -/
theorem requestSetup_message_prefixed_witness :
    (handleErrorJs (fun _ : Unit => "null")
        { response := none, request := none, message := "boom" }).message =
      "Request Error: " ++ "boom" :=
  (requestSetup_message_prefixed (fun _ : Unit => "null")
    { response := none, request := none, message := "boom" } rfl rfl).2

/-- One-step unfolding of the retry loop on a failed attempt that is not the
last one: the operation is invoked, the backoff wait `delayMs * attempt` is
performed, and the loop continues with the next attempt. -/
theorem withRetryGo_step {ε τ : Type} (op : Nat → Except ε τ) (d a m : Nat)
    (e : ε) (hop : op a = Except.error e) :
    withRetryGo op d a (m + 1 + 1) =
      { result := (withRetryGo op d (a + 1) (m + 1)).result
        calls := (withRetryGo op d (a + 1) (m + 1)).calls + 1
        delays := d * a :: (withRetryGo op d (a + 1) (m + 1)).delays } := by
  simp [withRetryGo, hop]

/-- If the operation fails on every attempt, the retry loop performs exactly
`fuel` invocations from attempt `a` onward and its result is the failure of
the last attempt, `a + fuel - 1`. -/
theorem withRetryGo_allFail {ε τ : Type} (op : Nat → Except ε τ) (f : Nat → ε)
    (hf : ∀ k, op k = Except.error (f k)) (d : Nat) :
    ∀ (fuel : Nat), 1 ≤ fuel → ∀ (a : Nat),
      (withRetryGo op d a fuel).calls = fuel ∧
      (withRetryGo op d a fuel).result = Except.error (some (f (a + fuel - 1))) := by
  intro fuel
  induction fuel with
  | zero => intro h; exact absurd h (by decide)
  | succ n ih =>
    intro _ a
    cases n with
    | zero => simp [withRetryGo, hf a]
    | succ m =>
      have ihh := ih (by omega) (a + 1)
      have harg : a + 1 + (m + 1) - 1 = a + (m + 1 + 1) - 1 := by omega
      rw [harg] at ihh
      have step := withRetryGo_step op d a m (f a) (hf a)
      exact ⟨by rw [step, ihh.1], by rw [step, ihh.2]⟩

/-- Claim C5: for an operation failing on every attempt and any
`maxAttempts = N ≥ 1`, `withRetry` invokes the operation exactly `N` times and
re-raises exactly the failure observed on the `N`-th attempt (the value
thrown there, not a new wrapping error). -/
theorem withRetry_exhausts_and_rethrows_last {ε τ : Type}
    (op : Nat → Except ε τ) (f : Nat → ε)
    (hf : ∀ k, op k = Except.error (f k)) (N d : Nat) (hN : 1 ≤ N) :
    (withRetry op N d).calls = N ∧
    (withRetry op N d).result = Except.error (some (f N)) := by
  have h := withRetryGo_allFail op f hf d N hN 1
  have harg : 1 + N - 1 = N := by omega
  rw [harg] at h
  exact h

/-- Witness for C5 at a concrete input: an operation throwing its attempt
number, with `maxAttempts = 3`, is invoked 3 times and the thrown failure is
the third attempt's. -/
theorem withRetry_exhausts_witness :
    (withRetry (fun k => Except.error k) 3 7 : RetryTrace Nat Unit).calls = 3 ∧
    (withRetry (fun k => Except.error k) 3 7 : RetryTrace Nat Unit).result =
      Except.error (some 3) :=
  withRetry_exhausts_and_rethrows_last (fun k => Except.error k) (fun k => k)
    (fun _ => rfl) 3 7 (by decide)

/-- Claim C6: for an operation failing on attempts 1 and 2 and succeeding on
attempt 3, `withRetry(op, 3, 1000)` returns the successful value, invokes the
operation exactly 3 times, and waits `1000 × 1` ms after attempt 1 and
`1000 × 2` ms after attempt 2 (linear backoff), with no wait after the final
attempt. -/
theorem withRetry_failTwiceThenSucceed {ε τ : Type} (op : Nat → Except ε τ)
    (e1 e2 : ε) (v : τ) (h1 : op 1 = Except.error e1)
    (h2 : op 2 = Except.error e2) (h3 : op 3 = Except.ok v) :
    withRetry op 3 1000 =
      { result := Except.ok v, calls := 3, delays := [1000, 2000] } := by
  simp [withRetry, withRetryGo, h1, h2, h3]

/-- Witness for C6 at a concrete operation failing twice then succeeding. -/
theorem withRetry_failTwiceThenSucceed_witness :
    withRetry (fun k => if k = 3 then Except.ok 42 else Except.error k) 3 1000 =
      { result := Except.ok 42, calls := 3, delays := [1000, 2000] } :=
  withRetry_failTwiceThenSucceed
    (fun k => if k = 3 then Except.ok 42 else Except.error k) 1 2 42 rfl rfl rfl

/-- Every result the retry loop can produce from attempt `a` with positive
fuel is either a value some attempt returned or a failure some attempt
threw, with that attempt's index in range. -/
theorem withRetryGo_result_from_op {ε τ : Type} (op : Nat → Except ε τ)
    (d : Nat) :
    ∀ (fuel : Nat), 1 ≤ fuel → ∀ (a : Nat),
      (∃ v k, (withRetryGo op d a fuel).result = Except.ok v ∧
        a ≤ k ∧ k < a + fuel ∧ op k = Except.ok v) ∨
      (∃ e k, (withRetryGo op d a fuel).result = Except.error (some e) ∧
        a ≤ k ∧ k < a + fuel ∧ op k = Except.error e) := by
  intro fuel
  induction fuel with
  | zero => intro h; exact absurd h (by decide)
  | succ n ih =>
    intro _ a
    cases n with
    | zero =>
      cases hop : op a with
      | ok v => exact Or.inl ⟨v, a, by simp [withRetryGo, hop], le_rfl, by omega, hop⟩
      | error e => exact Or.inr ⟨e, a, by simp [withRetryGo, hop], le_rfl, by omega, hop⟩
    | succ m =>
      cases hop : op a with
      | ok v => exact Or.inl ⟨v, a, by simp [withRetryGo, hop], le_rfl, by omega, hop⟩
      | error e =>
        have step := withRetryGo_step op d a m e hop
        rcases ih (by omega) (a + 1) with ⟨v, k, hres, hk1, hk2, hk3⟩ | ⟨e2, k, hres, hk1, hk2, hk3⟩
        · exact Or.inl ⟨v, k, by rw [step, hres], by omega, by omega, hk3⟩
        · exact Or.inr ⟨e2, k, by rw [step, hres], by omega, by omega, hk3⟩

/-- Claim C7: with `maxAttempts = N ≥ 1`, `withRetry` never reaches the final
re-throw with `lastError` unassigned (it never throws `undefined`): it either
returns a value produced by a successful invocation of the operation, or
throws a failure the operation actually threw, on an attempt in `[1, N]`. -/
theorem withRetry_never_throws_unassigned {ε τ : Type} (op : Nat → Except ε τ)
    (N d : Nat) (hN : 1 ≤ N) :
    (withRetry op N d).result ≠ Except.error none ∧
    ((∃ v k, (withRetry op N d).result = Except.ok v ∧
        1 ≤ k ∧ k ≤ N ∧ op k = Except.ok v) ∨
      (∃ e k, (withRetry op N d).result = Except.error (some e) ∧
        1 ≤ k ∧ k ≤ N ∧ op k = Except.error e)) := by
  rcases withRetryGo_result_from_op op d N hN 1 with ⟨v, k, hres, hk1, hk2, hk3⟩ | ⟨e, k, hres, hk1, hk2, hk3⟩
  · exact ⟨by rw [withRetry, hres]; exact fun h => Except.noConfusion h,
      Or.inl ⟨v, k, hres, hk1, by omega, hk3⟩⟩
  · refine ⟨by rw [withRetry, hres]; intro h; simp at h, Or.inr ⟨e, k, hres, hk1, by omega, hk3⟩⟩

/-- Witness for C7 at a concrete input: an operation that succeeds
immediately, with one allowed attempt. -/
theorem withRetry_never_throws_unassigned_witness :
    (withRetry (fun _ : Nat => (Except.ok 5 : Except Unit Nat)) 1 0).result ≠
      Except.error none :=
  (withRetry_never_throws_unassigned (fun _ : Nat => (Except.ok 5 : Except Unit Nat)) 1 0 (by decide)).1

/-- Setting a header then reading it back yields the assigned value. -/
theorem getHeader_setHeader (hs : List (String × String)) (key value : String) :
    getHeader (setHeader hs key value) key = some value := by
  induction hs with
  | nil => simp [setHeader, getHeader]
  | cons p rest ih =>
    obtain ⟨k0, v0⟩ := p
    by_cases h : k0 = key <;> simp [setHeader, getHeader, h, ih]

/-- Deleting a header then reading it yields nothing. -/
theorem getHeader_removeHeader (hs : List (String × String)) (key : String) :
    getHeader (removeHeader hs key) key = none := by
  induction hs with
  | nil => simp [removeHeader, getHeader]
  | cons p rest ih =>
    obtain ⟨k0, v0⟩ := p
    by_cases h : k0 = key
    · subst h
      simp_all [removeHeader, getHeader, List.filter, bne]
    · have hb : (k0 == key) = false := beq_eq_false_iff_ne.mpr h
      simp only [removeHeader, List.filter, bne, hb, Bool.not_false] at ih ⊢
      simp only [getHeader]
      rw [if_neg h]
      exact ih

/-- Claim C8: after `setAuthToken(token)`, every subsequently issued request
carries an `Authorization` header whose value is `"Bearer "` followed by the
token; after `removeAuthToken()`, every subsequently issued request carries
no `Authorization` header. -/
theorem authToken_header_roundtrip (st : ClientState) (token : String) :
    getHeader (issuedRequestHeaders (setAuthToken st token)) "Authorization" =
      some ("Bearer " ++ token) ∧
    getHeader (issuedRequestHeaders (removeAuthToken st)) "Authorization" = none :=
  ⟨getHeader_setHeader st.commonHeaders "Authorization" ("Bearer " ++ token),
    getHeader_removeHeader st.commonHeaders "Authorization"⟩

/-- Counterexample to claim C9 as stated: against the same successful
transport response, the run whose logging calls throw produces a different
outcome (the logger's exception) than the run with a no-op logger (the
envelope), so a throwing logging call does alter the request outcome. -/
theorem logging_throw_alters_outcome :
    getLogged (σ := Unit) (η := Unit) (β := Unit) (Except.error "log failure")
        (Except.ok { data := (), status := 200, statusText := "OK", headers := () }) ≠
      getLogged (Except.ok ())
        (Except.ok { data := (), status := 200, statusText := "OK", headers := () }) := by
  simp [getLogged]

/-- Claim C9 (amended): the request outcome never depends on a logging
capability whose calls return normally — such a run yields exactly the plain
pipeline outcome — but a logging call that throws replaces the outcome with
the logger's exception. -/
theorem logging_nonthrowing_preserves_outcome {σ η β ε : Type}
    (t : Except (AxiosError β) (AxiosResponse σ η)) :
    getLogged (ε := ε) (Except.ok ()) t = Except.mapError Sum.inr (get t) ∧
    ∀ x : ε, getLogged (Except.error x) t = Except.error (Sum.inl x) := by
  refine ⟨?_, fun x => rfl⟩
  cases t <;> simp [getLogged, get, Except.mapError]

/-- Claim C10: `getBaseURL` returns the construction-time base address, and
after any `setBaseURL(u)` it returns `u`, the most recently written value. -/
theorem baseURL_roundtrip (b u1 u2 : String) (tmo : Nat) (st : ClientState) :
    getBaseURL (mkClient b tmo) = b ∧
    getBaseURL (setBaseURL st u1) = u1 ∧
    getBaseURL (setBaseURL (setBaseURL st u1) u2) = u2 :=
  ⟨rfl, rfl, rfl⟩

end ApiClient
